import Mathlib

/-!
Shallow embedding of the Kalman filter estimator of `src/kalman.rs` from the
postcard-telemetry library, together with proofs of the specified properties.

Modelling conventions:
- `f32` arithmetic is idealized as exact rational arithmetic (`ℚ`); the
  properties verified here are the algebraic ones the specification states
  over exact arithmetic.
- nalgebra `SMatrix<f32, M, N>` becomes `Matrix (Fin m) (Fin n) ℚ`.
- nalgebra `try_inverse` becomes an `Option`-valued inverse that fails exactly
  on singular matrices.
- A Rust panic (the `.unwrap()` in `KalmanFilter::next`) is modelled as the
  `none` outcome of an `Option`-valued function.
-/

namespace PostcardTelemetry

/-- Fixed-size rational matrix, standing in for `SMatrix<f32, M, N>`. -/
abbrev Mat (m n : ℕ) : Type := Matrix (Fin m) (Fin n) ℚ

/-- A state estimate: the `(mean, covariance)` pair threaded through the
recursion, exactly the tuples passed around in `kalman.rs`. -/
abbrev Estimate (s : ℕ) : Type := Mat s 1 × Mat s s

/-- nalgebra `try_inverse`: explicit failure on a singular matrix, otherwise
the inverse, computed as `det⁻¹ • adjugate`. -/
def tryInverse {n : ℕ} (M : Mat n n) : Option (Mat n n) :=
  if M.det = 0 then none else some (M.det⁻¹ • M.adjugate)

/-- The `KalmanFilter<S, I, R>` struct of `kalman.rs`: five matrices fixed at
construction.  The field names are the source's field names (`uncertainty` is
what the spec calls `process_noise`). -/
structure KalmanFilter (s i r : ℕ) where
  prediction : Mat s s
  measurement : Mat r s
  control : Mat s i
  sensor_noise : Mat r r
  uncertainty : Mat s s

namespace KalmanFilter

variable {s i r : ℕ}

/-- `KalmanFilter::new`: stores the five matrices, nothing else. -/
def new (prediction : Mat s s) (measurement : Mat r s) (control : Mat s i)
    (sn : Mat r r) (uncertainty : Mat s s) : KalmanFilter s i r :=
  ⟨prediction, measurement, control, sn, uncertainty⟩

/-- `KalmanFilter::init`: the t = 0 prediction cycle.  The control term is
the control matrix applied to a hard-coded zero vector
(`SMatrix::<f32, I, 1>::zeros()`). -/
def init (kf : KalmanFilter s i r) (e : Estimate s) : Estimate s :=
  (kf.prediction * e.1 + kf.control * (0 : Mat i 1),
    kf.prediction * e.2 * kf.prediction.transpose + kf.uncertainty)

/-- `KalmanFilter::next`: the fused per-tick operation.  It first fuses the
sensor reading into the previous estimate (the correction phase, using the
Kalman gain), then extrapolates the corrected estimate one tick forward with
the control input (the prediction phase).  The source unwraps the result of
`try_inverse`, so a singular innovation covariance panics; that panic is
modelled as the `none` outcome. -/
def next (kf : KalmanFilter s i r) (e : Estimate s) (inputs : Mat i 1)
    (sensor_readings : Mat r 1) : Option (Estimate s) :=
  (tryInverse
      (kf.measurement * e.2 * kf.measurement.transpose + kf.sensor_noise)).map
    fun inv =>
      let kalman_gain := e.2 * kf.measurement.transpose * inv
      let current_estimate :=
        e.1 + kalman_gain * (sensor_readings - kf.measurement * e.1)
      let current_covariance :=
        ((1 : Mat s s) - kalman_gain * kf.measurement) * e.2
      (kf.prediction * current_estimate + kf.control * inputs,
        kf.prediction * current_covariance * kf.prediction.transpose
          + kf.uncertainty)

/-- The correction phase of `next` (`kalman.rs` lines 67-79), extracted as a
standalone operation: Kalman gain, corrected mean, corrected covariance.
Fails (as `next` does, by panicking) when the innovation covariance is
singular. -/
def correct (kf : KalmanFilter s i r) (e : Estimate s)
    (sensor_readings : Mat r 1) : Option (Estimate s) :=
  (tryInverse
      (kf.measurement * e.2 * kf.measurement.transpose + kf.sensor_noise)).map
    fun inv =>
      let kalman_gain := e.2 * kf.measurement.transpose * inv
      (e.1 + kalman_gain * (sensor_readings - kf.measurement * e.1),
        ((1 : Mat s s) - kalman_gain * kf.measurement) * e.2)

/-- The prediction phase of `next` (`kalman.rs` lines 81-84), extracted as a
standalone operation: extrapolate mean and covariance one tick. -/
def predict (kf : KalmanFilter s i r) (e : Estimate s) (inputs : Mat i 1) :
    Estimate s :=
  (kf.prediction * e.1 + kf.control * inputs,
    kf.prediction * e.2 * kf.prediction.transpose + kf.uncertainty)

/-- The innovation covariance `H · P · Hᵀ + R` formed inside `next`. -/
def innovationCovariance (kf : KalmanFilter s i r) (P : Mat s s) : Mat r r :=
  kf.measurement * P * kf.measurement.transpose + kf.sensor_noise

end KalmanFilter

/-- The state a caller threads through the recursion: the (never mutated)
filter together with the current estimate. -/
abbrev FilterState (s i r : ℕ) : Type := KalmanFilter s i r × Estimate s

/-- One estimator call: either the zero-time `init` cycle or a regular
`next` tick with a control input and a sensor reading. -/
inductive FilterOp (s i r : ℕ) where
  | coldStart : FilterOp s i r
  | tick (inputs : Mat i 1) (sensor_readings : Mat r 1) : FilterOp s i r

/-- Apply one estimator call to the caller's state.  Both calls take the
filter by shared reference in the source and can only produce a new
estimate, never a new filter. -/
def applyOp (st : FilterState s i r) : FilterOp s i r →
    Option (FilterState s i r)
  | .coldStart => some (st.1, st.1.init st.2)
  | .tick u z => (st.1.next st.2 u z).map fun e2 => (st.1, e2)

/-- Run a sequence of estimator calls, stopping at the first panic. -/
def runOps (st : FilterState s i r) : List (FilterOp s i r) →
    Option (FilterState s i r)
  | [] => some st
  | op :: ops =>
    match applyOp st op with
    | none => none
    | some st2 => runOps st2 ops

/-- A 1-dimensional model whose innovation covariance is exactly the zero
matrix: identity measurement, zero sensor noise, paired below with a zero
covariance estimate. -/
def kfSing : KalmanFilter 1 1 1 := ⟨!![1], !![1], !![0], !![0], !![0]⟩

/-- A well-conditioned 1-dimensional model (identity dynamics and
measurement, non-zero control matrix, unit sensor noise). -/
def kfDemo : KalmanFilter 1 1 1 := ⟨!![1], !![1], !![1], !![1], !![0]⟩

/-- A concrete model built through `KalmanFilter.new`, for exercising the
construction/immutability property. -/
def kfBuilt : KalmanFilter 1 1 1 := KalmanFilter.new !![1] !![1] !![1] !![1] !![0]

/-- The state reached from `kfBuilt` and a unit-covariance estimate by one
`init` call. -/
def stBuilt : FilterState 1 1 1 := (kfBuilt, kfBuilt.init (!![0], !![1]))

/-! ## Helper lemmas -/

/-- On a matrix with non-zero determinant, `tryInverse` succeeds and returns
the (mathematical) inverse. -/
theorem tryInverse_eq_inv {n : ℕ} {M : Mat n n} (h : M.det ≠ 0) :
    tryInverse M = some M⁻¹ := by
  rw [tryInverse, if_neg h, Matrix.inv_def, Ring.inverse_eq_inv]

/-- On a matrix with zero determinant, `tryInverse` fails. -/
theorem tryInverse_eq_none {n : ℕ} {M : Mat n n} (h : M.det = 0) :
    tryInverse M = none := by
  rw [tryInverse, if_pos h]

/-- 1×1 matrix product, entrywise. -/
theorem mat1_mul (a b : ℚ) : (!![a] : Mat 1 1) * !![b] = !![a * b] := by
  ext i j
  fin_cases i
  fin_cases j
  simp [Matrix.mul_apply, Fin.sum_univ_one]

/-- 1×1 matrix sum, entrywise. -/
theorem mat1_add (a b : ℚ) : (!![a] : Mat 1 1) + !![b] = !![a + b] := by
  ext i j
  fin_cases i
  fin_cases j
  simp

/-- 1×1 matrix difference, entrywise. -/
theorem mat1_sub (a b : ℚ) : (!![a] : Mat 1 1) - !![b] = !![a - b] := by
  ext i j
  fin_cases i
  fin_cases j
  simp

/-- Transposition fixes 1×1 matrices. -/
theorem mat1_transpose (a : ℚ) : (!![a] : Mat 1 1).transpose = !![a] := by
  ext i j
  fin_cases i
  fin_cases j
  simp

/-- The 1×1 identity matrix as a literal. -/
theorem mat1_one : (1 : Mat 1 1) = !![1] := by
  ext i j
  fin_cases i
  fin_cases j
  simp

/-- The 1×1 zero matrix as a literal. -/
theorem mat1_zero : (0 : Mat 1 1) = !![0] := by
  ext i j
  fin_cases i
  fin_cases j
  simp

/-- `tryInverse` on a non-singular 1×1 matrix inverts the single entry. -/
theorem tryInverse_mat1 {a : ℚ} (h : a ≠ 0) :
    tryInverse !![a] = some !![a⁻¹] := by
  rw [tryInverse, if_neg (by simpa [Matrix.det_fin_one] using h)]
  congr 1
  rw [Matrix.det_fin_one, Matrix.adjugate_fin_one]
  ext i j
  fin_cases i
  fin_cases j
  simp

/-- `tryInverse` fails on the 1×1 zero matrix. -/
theorem tryInverse_mat1_zero : tryInverse (!![0] : Mat 1 1) = none := by
  rw [tryInverse, if_pos (by simp [Matrix.det_fin_one])]

/-- A single estimator call can change the estimate but never the filter. -/
theorem applyOp_model_eq {st st2 : FilterState s i r} {op : FilterOp s i r}
    (h : applyOp st op = some st2) : st2.1 = st.1 := by
  cases op with
  | coldStart =>
    simp only [applyOp] at h
    cases h
    rfl
  | tick u z =>
    simp only [applyOp] at h
    rcases hn : st.1.next st.2 u z with _ | e2
    · rw [hn] at h
      simp at h
    · rw [hn] at h
      simp only [Option.map_some'] at h
      cases h
      rfl

/-- A whole sequence of estimator calls never changes the filter. -/
theorem runOps_model_eq {s i r : ℕ} (ops : List (FilterOp s i r)) :
    ∀ (st st2 : FilterState s i r), runOps st ops = some st2 → st2.1 = st.1 := by
  induction ops with
  | nil =>
    intro st st2 h
    simp only [runOps] at h
    cases h
    rfl
  | cons op ops ih =>
    intro st st2 h
    simp only [runOps] at h
    rcases ha : applyOp st op with _ | st3
    · rw [ha] at h
      simp at h
    · rw [ha] at h
      simp only [] at h
      exact (ih st3 st2 h).trans (applyOp_model_eq ha)

/-! ## Claim theorems -/

/-- C3: for every model, estimate and control input, the prediction phase
returns exactly `next_mean = prediction · mean + control_matrix · control_input`
and `next_covariance = prediction · covariance · prediction^T + process_noise`;
moreover `init` is exactly this phase at the zero control input. -/
theorem predict_formula {s i r : ℕ} (kf : KalmanFilter s i r) (e : Estimate s)
    (u : Mat i 1) :
    kf.predict e u = (kf.prediction * e.1 + kf.control * u,
      kf.prediction * e.2 * kf.prediction.transpose + kf.uncertainty) ∧
    kf.init e = kf.predict e (0 : Mat i 1) :=
  ⟨rfl, rfl⟩

/-- C4: whenever the innovation covariance is invertible, the correction
phase computes the gain
`P · Hᵀ · (H · P · Hᵀ + sensor_noise)⁻¹` and returns the corrected mean
`x + gain · (z - H · x)`. -/
theorem correct_gain_and_mean_formula {s i r : ℕ} (kf : KalmanFilter s i r)
    (x : Mat s 1) (P : Mat s s) (z : Mat r 1)
    (h : (kf.innovationCovariance P).det ≠ 0) :
    (kf.correct (x, P) z).map Prod.fst =
      some (x + P * kf.measurement.transpose * (kf.innovationCovariance P)⁻¹ *
        (z - kf.measurement * x)) := by
  have h2 := tryInverse_eq_inv h
  unfold KalmanFilter.innovationCovariance at h2 ⊢
  simp only [KalmanFilter.correct, h2, Option.map_some']

/-- C5: whenever the innovation covariance is invertible, the corrected
covariance equals `P - gain · H · P`; the source computes the symmetrized
form `(1 - gain · H) · P`, which is equal over exact arithmetic. -/
theorem correct_covariance_formula {s i r : ℕ} (kf : KalmanFilter s i r)
    (x : Mat s 1) (P : Mat s s) (z : Mat r 1)
    (h : (kf.innovationCovariance P).det ≠ 0) :
    (kf.correct (x, P) z).map Prod.snd =
      some (P - P * kf.measurement.transpose * (kf.innovationCovariance P)⁻¹ *
        kf.measurement * P) := by
  have h2 := tryInverse_eq_inv h
  unfold KalmanFilter.innovationCovariance at h2 ⊢
  simp only [KalmanFilter.correct, h2, Option.map_some']
  rw [Matrix.sub_mul, Matrix.one_mul]

/-- C6: when the sensor reading exactly equals `H · x`, the correction phase
leaves the mean unchanged, for any non-singular innovation covariance. -/
theorem correct_zero_innovation_mean_unchanged {s i r : ℕ}
    (kf : KalmanFilter s i r) (x : Mat s 1) (P : Mat s s)
    (h : (kf.innovationCovariance P).det ≠ 0) :
    (kf.correct (x, P) (kf.measurement * x)).map Prod.fst = some x := by
  have h2 := tryInverse_eq_inv h
  unfold KalmanFilter.innovationCovariance at h2
  simp only [KalmanFilter.correct, h2, Option.map_some']
  rw [sub_self, Matrix.mul_zero, add_zero]

/-- C7: the per-tick operation succeeds exactly when the innovation
covariance is invertible; the prediction phase — matrix multiply and add
only, embodied in the total function `predict` — contributes no failure. -/
theorem next_isSome_iff_invertible_innovation {s i r : ℕ}
    (kf : KalmanFilter s i r) (e : Estimate s) (u : Mat i 1) (z : Mat r 1) :
    (kf.next e u z).isSome ↔ (kf.innovationCovariance e.2).det ≠ 0 := by
  unfold KalmanFilter.next KalmanFilter.innovationCovariance
  by_cases h :
      (kf.measurement * e.2 * kf.measurement.transpose + kf.sensor_noise).det = 0
  · rw [tryInverse_eq_none h]
    exact iff_of_false (fun hs => Bool.noConfusion hs) (fun hne => hne h)
  · rw [tryInverse_eq_inv h]
    exact iff_of_true rfl h

/-- C9: the covariance returned by `next` depends only on the model and the
previous covariance — two calls with the same covariance but different
means, control inputs and sensor readings return identical covariances. -/
theorem next_covariance_ignores_mean_and_data {s i r : ℕ}
    (kf : KalmanFilter s i r) (x1 x2 : Mat s 1) (P : Mat s s)
    (u1 u2 : Mat i 1) (z1 z2 : Mat r 1) :
    (kf.next (x1, P) u1 z1).map Prod.snd =
      (kf.next (x2, P) u2 z2).map Prod.snd := by
  simp only [KalmanFilter.next]
  rcases h : tryInverse
      (kf.measurement * P * kf.measurement.transpose + kf.sensor_noise) with _ | inv
  · simp
  · simp

/-- C10: `init` ignores control entirely — its mean is
`prediction · previous_mean`, for every model, including models with a
non-zero control matrix. -/
theorem init_mean_ignores_control {s i r : ℕ} (kf : KalmanFilter s i r)
    (e : Estimate s) :
    (kf.init e).1 = kf.prediction * e.1 := by
  have h1 : (kf.init e).1 = kf.prediction * e.1 + kf.control * (0 : Mat i 1) := rfl
  rw [h1, Matrix.mul_zero, add_zero]

/-! ## Concrete evaluations used by the counterexample and witnesses -/

/-- The innovation covariance of `kfDemo` at unit covariance is `!![2]`. -/
theorem kfDemo_innovation : kfDemo.innovationCovariance !![1] = !![2] := by
  rw [KalmanFilter.innovationCovariance]
  norm_num only [kfDemo, mat1_mul, mat1_transpose, mat1_add]

/-- The innovation covariance of `kfDemo` at unit covariance is
non-singular. -/
theorem kfDemo_det_ne : (kfDemo.innovationCovariance !![1]).det ≠ 0 := by
  rw [kfDemo_innovation, Matrix.det_fin_one]
  norm_num

/-- Evaluation of the prediction phase of `kfDemo` at the estimate
`(0, 1)` with control input `1`. -/
theorem predict_demo_eval : kfDemo.predict (!![0], !![1]) !![1] = (!![1], !![1]) := by
  rw [KalmanFilter.predict]
  norm_num only [kfDemo, mat1_mul, mat1_transpose, mat1_add]

/-- Evaluation of the fused tick of `kfDemo` at the estimate `(0, 1)`,
control input `1` and reading `0`: the correction leaves the mean at `0`
(zero innovation), then the prediction moves it to `1`. -/
theorem next_demo_eval :
    kfDemo.next (!![0], !![1]) !![1] !![0] = some (!![1], !![1/2]) := by
  have h2 : tryInverse (!![(2:ℚ)]) = some !![2⁻¹] := tryInverse_mat1 (by norm_num)
  norm_num only [KalmanFilter.next, kfDemo, mat1_mul, mat1_transpose, mat1_add, mat1_sub,
    mat1_one, mat1_zero, h2, Option.map_some']
  rw [mat1_one]
  norm_num only [mat1_sub, mat1_mul, mat1_add]

/-- Evaluation of predict-then-correct of `kfDemo` at the same inputs: the
prediction moves the mean to `1`, then the correction pulls it halfway back
to the reading `0`, giving `1/2`. -/
theorem correct_predict_demo_eval :
    kfDemo.correct (kfDemo.predict (!![0], !![1]) !![1]) !![0]
      = some (!![1/2], !![1/2]) := by
  rw [predict_demo_eval]
  have h2 : tryInverse (!![(2:ℚ)]) = some !![2⁻¹] := tryInverse_mat1 (by norm_num)
  norm_num only [KalmanFilter.correct, kfDemo, mat1_mul, mat1_transpose, mat1_add, mat1_sub,
    mat1_one, mat1_zero, h2, Option.map_some']
  rw [mat1_one]
  norm_num only [mat1_sub, mat1_mul, mat1_add]

/-! ## Remaining claim theorems, counterexample and witnesses -/

/-- C1: at a model/estimate pair whose innovation covariance is exactly the
zero matrix (identity measurement, zero sensor noise, zero covariance), the
per-tick operation does not return a `SingularCovariance` error: the source
unwraps `try_inverse` and panics, modelled here as the `none` outcome. -/
theorem next_panics_on_singular_innovation :
    kfSing.next (!![0], !![0]) !![0] !![0] = none := by
  have hS : kfSing.measurement * (!![0] : Mat 1 1) * kfSing.measurement.transpose
      + kfSing.sensor_noise = !![0] := by
    norm_num only [kfSing, mat1_mul, mat1_transpose, mat1_add]
  simp only [KalmanFilter.next, hS, tryInverse_mat1_zero, Option.map_none']

/-- C2 counterexample: at a concrete model and inputs, the fused per-tick
operation differs from correct-applied-after-predict: the code corrects
first (mean stays `0`, zero innovation) and then predicts (mean `1`),
whereas predict-then-correct yields mean `1/2`. -/
theorem step_composition_claim_false :
    kfDemo.next (!![0], !![1]) !![1] !![0] ≠
      kfDemo.correct (kfDemo.predict (!![0], !![1]) !![1]) !![0] := by
  rw [next_demo_eval, correct_predict_demo_eval]
  intro hc
  simp only [Option.some.injEq, Prod.mk.injEq] at hc
  have h2 := congrFun (congrFun hc.1 0) 0
  norm_num at h2

/-- C2 (amended): the fused per-tick operation equals the correction phase
applied to the previous estimate followed by the prediction phase applied
to the corrected estimate — prediction after correction, not before. -/
theorem next_eq_predict_after_correct {s i r : ℕ} (kf : KalmanFilter s i r)
    (e : Estimate s) (u : Mat i 1) (z : Mat r 1) :
    kf.next e u z = (kf.correct e z).map fun ec => kf.predict ec u := by
  simp only [KalmanFilter.next, KalmanFilter.correct, KalmanFilter.predict]
  rcases h : tryInverse
      (kf.measurement * e.2 * kf.measurement.transpose + kf.sensor_noise) with _ | inv
  · simp
  · simp

/-- C8: construction stores the five matrices unchanged, and after any
sequence of estimator calls (cold-start and regular ticks) that does not
panic, the filter still holds exactly the construction arguments. -/
theorem model_unchanged_by_estimator_calls {s i r : ℕ} (p : Mat s s)
    (m : Mat r s) (c : Mat s i) (sn : Mat r r) (q : Mat s s)
    (e : Estimate s) (ops : List (FilterOp s i r)) (st2 : FilterState s i r)
    (h : runOps (KalmanFilter.new p m c sn q, e) ops = some st2) :
    st2.1.prediction = p ∧ st2.1.measurement = m ∧ st2.1.control = c ∧
      st2.1.sensor_noise = sn ∧ st2.1.uncertainty = q := by
  have h1 := runOps_model_eq ops _ _ h
  rw [h1]
  exact ⟨rfl, rfl, rfl, rfl, rfl⟩

/-- C8 witness: a concrete cold-start run from a freshly built model leaves
the model equal to the construction arguments. -/
theorem model_unchanged_by_estimator_calls_witness :
    runOps (kfBuilt, (!![0], !![1])) [FilterOp.coldStart] = some stBuilt ∧
      (stBuilt.1.prediction = !![1] ∧ stBuilt.1.measurement = !![1] ∧
        stBuilt.1.control = !![1] ∧ stBuilt.1.sensor_noise = !![1] ∧
        stBuilt.1.uncertainty = !![0]) :=
  ⟨rfl, model_unchanged_by_estimator_calls !![1] !![1] !![1] !![1] !![0]
    (!![0], !![1]) [FilterOp.coldStart] stBuilt rfl⟩

/-- C4 witness: the gain/mean formula instantiated at `kfDemo` with
estimate `(0, 1)` and reading `0`, whose innovation covariance `!![2]` is
non-singular. -/
theorem correct_gain_and_mean_formula_witness :
    (kfDemo.innovationCovariance !![1]).det ≠ 0 ∧
      (kfDemo.correct (!![0], !![1]) !![0]).map Prod.fst =
        some (!![0] + !![1] * kfDemo.measurement.transpose *
          (kfDemo.innovationCovariance !![1])⁻¹ * (!![0] - kfDemo.measurement * !![0])) :=
  ⟨kfDemo_det_ne, correct_gain_and_mean_formula kfDemo !![0] !![1] !![0] kfDemo_det_ne⟩

/-- C5 witness: the covariance formula instantiated at `kfDemo` with
estimate `(0, 1)` and reading `0`. -/
theorem correct_covariance_formula_witness :
    (kfDemo.innovationCovariance !![1]).det ≠ 0 ∧
      (kfDemo.correct (!![0], !![1]) !![0]).map Prod.snd =
        some (!![1] - !![1] * kfDemo.measurement.transpose *
          (kfDemo.innovationCovariance !![1])⁻¹ * kfDemo.measurement * !![1]) :=
  ⟨kfDemo_det_ne, correct_covariance_formula kfDemo !![0] !![1] !![0] kfDemo_det_ne⟩

/-- C6 witness: zero-innovation idempotence instantiated at `kfDemo` with
estimate `(0, 1)` and the exactly-expected reading. -/
theorem correct_zero_innovation_mean_unchanged_witness :
    (kfDemo.innovationCovariance !![1]).det ≠ 0 ∧
      (kfDemo.correct (!![0], !![1]) (kfDemo.measurement * !![0])).map Prod.fst =
        some !![0] :=
  ⟨kfDemo_det_ne, correct_zero_innovation_mean_unchanged kfDemo !![0] !![1] kfDemo_det_ne⟩

end PostcardTelemetry
